import Mathlib

/-!
Shallow embedding of the online-nursery backend (src/src/index.ts) and
verification of the frozen claims about its order workflow and product
query builder.

Conventions of the embedding:
* JavaScript numbers used by the handlers are modelled as `Int` (the spec
  treats prices/stock/quantities as integers); the `Number(x) || d`
  coercion pattern is modelled by `JSNum` (an integer or NaN).
* MongoDB documents are modelled by Lean structures; `_id` keys are `Nat`.
* The mutable database is an explicit `DB` value threaded through each
  handler; a handler returns the (possibly updated) database together with
  its response.
* Fallible handlers return `Except`; the error constructors follow the
  spec's error taxonomy (NotFound, InsufficientStock, ValidationError).
-/

/-- Product document (productSchema, index.ts lines 44-55).  `createdAt`
comes from the schema's `timestamps: true` option and is the default sort
key of the product query. -/
structure Product where
  name : String
  description : String
  price : Int
  stock : Int
  category : String
  rating : Option Int
  image_url : String
  createdAt : Int
deriving DecidableEq

/-- One line item of an order (orderSchema.products, lines 95-104):
a product reference plus a quantity. -/
structure OrderItem where
  productId : Nat
  quantity : Int
deriving DecidableEq

/-- The five enumerated order states (orderSchema.status, lines 106-110). -/
inductive OrderStatus
  | pending
  | processing
  | shipped
  | delivered
  | cancelled
deriving DecidableEq

/-- Order document (orderSchema, lines 90-113). -/
structure Order where
  name : String
  phoneNumber : String
  address : String
  products : List OrderItem
  totalAmount : Int
  status : OrderStatus
deriving DecidableEq

/-- The backing store: the Product and Order collections, keyed by id. -/
structure DB where
  products : List (Nat × Product)
  orders : List (Nat × Order)
deriving DecidableEq

/-- `Product.findById` (e.g. line 454): first document whose id matches. -/
def findProduct (db : DB) (pid : Nat) : Option Product :=
  (db.products.find? (fun pr => pr.1 == pid)).map Prod.snd

/-- `Order.findById` (line 524 and 552). -/
def findOrder (db : DB) (oid : Nat) : Option Order :=
  (db.orders.find? (fun pr => pr.1 == oid)).map Prod.snd

/-- A fresh order id, larger than every id already in the collection
(models MongoDB generating a unique `_id` on `order.save()`). -/
def freshOrderId (db : DB) : Nat :=
  (db.orders.map Prod.fst).foldl max 0 + 1

/-- Errors the POST /api/orders handler reports (lines 455-468):
404 for a missing product, 400 for insufficient stock. -/
inductive OrderErr
  | notFound (pid : Nat)
  | insufficientStock (pname : String)
deriving DecidableEq

/-- The validation loop of POST /api/orders (lines 452-470): walk the line
items in order; a missing product aborts with NotFound, `stock < quantity`
aborts with InsufficientStock, otherwise `totalAmount += price * quantity`. -/
def checkItems (db : DB) (totalAmount : Int) : List OrderItem → Except OrderErr Int
  | [] => Except.ok totalAmount
  | it :: rest =>
    match findProduct db it.productId with
    | none => Except.error (OrderErr.notFound it.productId)
    | some product =>
      if product.stock < it.quantity then
        Except.error (OrderErr.insufficientStock product.name)
      else
        checkItems db (totalAmount + product.price * it.quantity) rest

/-- One step of the stock-decrement loop (lines 483-487):
`Product.findByIdAndUpdate(item.productId, { $inc: { stock: -item.quantity } })`. -/
def decStock (db : DB) (it : OrderItem) : DB :=
  { db with
    products := db.products.map (fun pr =>
      if pr.1 == it.productId then (pr.1, { pr.2 with stock := pr.2.stock - it.quantity }) else pr) }

/-- The whole stock-decrement loop of POST /api/orders. -/
def decAll (db : DB) (items : List OrderItem) : DB :=
  items.foldl decStock db

/-- An order request body (line 450): `{ name, phoneNumber, address, products }`. -/
structure OrderRequest where
  name : String
  phoneNumber : String
  address : String
  products : List OrderItem
deriving DecidableEq

/-- POST /api/orders (lines 446-499): validate every line item and
accumulate the total; on success build the Order (status takes the schema
default `pending`), save it, then decrement stock item by item.  On
failure the handler returns before any write, so the database component of
the result is the input database. -/
def placeOrder (db : DB) (req : OrderRequest) : DB × Except OrderErr (Nat × Order) :=
  match checkItems db 0 req.products with
  | Except.error e => (db, Except.error e)
  | Except.ok totalAmount =>
    let order : Order :=
      { name := req.name
        phoneNumber := req.phoneNumber
        address := req.address
        products := req.products
        totalAmount := totalAmount
        status := OrderStatus.pending }
    let oid := freshOrderId db
    let db1 : DB := { db with orders := db.orders ++ [(oid, order)] }
    let db2 := decAll db1 req.products
    (db2, Except.ok (oid, order))

/-- Whether a single line item fails the validation loop: its product is
missing, or its quantity exceeds the product's current stock. -/
def itemFailsB (db : DB) (it : OrderItem) : Bool :=
  match findProduct db it.productId with
  | none => true
  | some product => decide (product.stock < it.quantity)

/-- The error the validation loop reports for a failing item: NotFound
when the product is missing, InsufficientStock otherwise. -/
def itemErr (db : DB) (it : OrderItem) : OrderErr :=
  match findProduct db it.productId with
  | none => OrderErr.notFound it.productId
  | some product => OrderErr.insufficientStock product.name

/-- The spec's reference total: the sum over the line items of the
referenced product's price (at placement time) times the quantity. -/
def specTotal (db : DB) (items : List OrderItem) : Int :=
  (items.map (fun it =>
    (match findProduct db it.productId with
     | some product => product.price
     | none => 0) * it.quantity)).sum

/-- Total quantity the request orders of one given product, across all of
its line items. -/
def sumQty (items : List OrderItem) (pid : Nat) : Int :=
  ((items.filter (fun it => it.productId == pid)).map OrderItem.quantity).sum

/-- The five legal status strings (orderSchema.status.enum, line 108). -/
def statusEnum : List String :=
  ["pending", "processing", "shipped", "delivered", "cancelled"]

/-- Mongoose's casting of a status string to the enumeration: `some` for
the five enumerated values, `none` (a ValidationError) otherwise. -/
def parseStatus (s : String) : Option OrderStatus :=
  if s = "pending" then some OrderStatus.pending
  else if s = "processing" then some OrderStatus.processing
  else if s = "shipped" then some OrderStatus.shipped
  else if s = "delivered" then some OrderStatus.delivered
  else if s = "cancelled" then some OrderStatus.cancelled
  else none

/-- Errors of PUT /api/orders/:id: a malformed enum value is rejected by
the schema validator (`runValidators: true`, line 555, surfacing as a 500
through the error middleware), a missing order yields the handler's 404. -/
inductive UpdErr
  | validationError
  | orderNotFound
deriving DecidableEq

/-- Replace the order stored under `oid` (the write of
`Order.findByIdAndUpdate`, lines 552-556). -/
def setOrder (db : DB) (oid : Nat) (o2 : Order) : DB :=
  { db with
    orders := db.orders.map (fun pr => if pr.1 == oid then (pr.1, o2) else pr) }

/-- PUT /api/orders/:id (lines 547-574): overwrite the status with the
request's status value; `runValidators: true` makes an out-of-enum string
fail before any write. -/
def updateOrderStatus (db : DB) (oid : Nat) (s : String) : DB × Except UpdErr Order :=
  match parseStatus s with
  | none => (db, Except.error UpdErr.validationError)
  | some st =>
    match findOrder db oid with
    | none => (db, Except.error UpdErr.orderNotFound)
    | some o =>
      let o2 : Order := { o with status := st }
      (setOrder db oid o2, Except.ok o2)

-- The product query builder (GET /api/products, lines 120-199).

/-- The result of JavaScript's `Number(x)` on a query-string value: an
integer, or NaN for a non-numeric string. -/
inductive JSNum
  | num (n : Int)
  | nan
deriving DecidableEq

/-- MongoDB comparison used by `$gte`/`$lte`: false whenever either side
is NaN. -/
def jsLe : JSNum → JSNum → Bool
  | JSNum.num a, JSNum.num b => decide (a ≤ b)
  | _, _ => false

/-- The inbound query parameters (`req.query`).  The reserved keys are
explicit fields; every other key/value pair lands in `extra` (the code's
`queryObj` after deleting the reserved keys). -/
structure ProductQuery where
  searchTerm : Option String := none
  minPrice : Option JSNum := none
  maxPrice : Option JSNum := none
  categories : Option String := none
  minRating : Option JSNum := none
  sortTerm : Option String := none
  sortOrder : Option String := none
  page : Option JSNum := none
  limit : Option JSNum := none
  extra : List (String × String) := []
deriving DecidableEq

/-- The reserved keys deleted from the pass-through filter object
(excludeFields, lines 137-147). -/
def excludeFields : List String :=
  ["searchTerm", "page", "limit", "sortTerm", "sortOrder",
   "minPrice", "maxPrice", "categories", "minRating"]

/-- Lower-casing a character sequence (the `i` regex option). -/
def lowerList (l : List Char) : List Char := l.map Char.toLower

/-- `String.prototype.split(",")` over the character sequence: split at
every comma, keeping empty pieces. -/
def splitCommaAux : List Char → List Char → List String
  | [], acc => [String.mk acc.reverse]
  | ch :: rest, acc =>
    if ch = ',' then String.mk acc.reverse :: splitCommaAux rest []
    else splitCommaAux rest (ch :: acc)

/-- `categoriesString.split(",")` (line 165). -/
def splitComma (s : String) : List String := splitCommaAux s.data []

/-- Prefix test on character sequences. -/
def isPrefixList : List Char → List Char → Bool
  | [], _ => true
  | _ :: _, [] => false
  | a :: as, b :: bs => a == b && isPrefixList as bs

/-- Substring containment on character sequences (haystack, needle); the
empty needle matches everything. -/
def containsSub : List Char → List Char → Bool
  | _, [] => true
  | [], _ :: _ => false
  | h :: hs, n :: ns => isPrefixList (n :: ns) (h :: hs) || containsSub hs (n :: ns)

/-- Case-insensitive substring containment: the semantics of the
`$regex: searchTerm, $options: "i"` match for a plain search term. -/
def ciContains (hay needle : String) : Bool :=
  containsSub (lowerList hay.data) (lowerList needle.data)

/-- The string-valued fields of a product document. -/
def docStr (p : Product) : String → Option String
  | "name" => some p.name
  | "description" => some p.description
  | "category" => some p.category
  | "image_url" => some p.image_url
  | _ => none

/-- The number-valued fields of a product document (`rating` is
optional; `createdAt` comes from the schema timestamps). -/
def docNum (p : Product) : String → Option Int
  | "price" => some p.price
  | "stock" => some p.stock
  | "rating" => p.rating
  | "createdAt" => some p.createdAt
  | _ => none

/-- The searchable fields (searchAbleFields, line 126). -/
def searchAbleFields : List String := ["name", "description"]

/-- The `$or` regex search of lines 130-134: the search term (defaulted to
the empty string, which matches everything) must occur, case-insensitively,
in one of the searchable fields. -/
def searchMatch (q : ProductQuery) (p : Product) : Bool :=
  searchAbleFields.any (fun field =>
    match docStr p field with
    | some s => ciContains s (q.searchTerm.getD (""))
    | none => false)

/-- One MongoDB condition stored under a key of the filter object. -/
inductive Cond
  | eqStr (v : String)
  | range (lo hi : Option JSNum)
  | gteNum (v : JSNum)
  | inSet (vs : List String)
deriving DecidableEq

/-- JavaScript object key assignment `obj[k] = c`: overwrite the entry if
the key is present, otherwise append it. -/
def setKey (obj : List (String × Cond)) (k : String) (c : Cond) : List (String × Cond) :=
  if obj.any (fun kv => kv.1 == k) then
    obj.map (fun kv => if kv.1 == k then (k, c) else kv)
  else obj ++ [(k, c)]

/-- The price-filter assignment of lines 154-160: when minPrice or
maxPrice is given, write the range condition under the object key
`price` (overwriting any pass-through entry under that key). -/
def priceStage (q : ProductQuery) (obj : List (String × Cond)) : List (String × Cond) :=
  if q.minPrice.isSome || q.maxPrice.isSome then
    setKey obj ("price") (Cond.range q.minPrice q.maxPrice)
  else obj

/-- The categories-filter assignment of lines 162-167: when a truthy
(non-empty) categories string is given, write the `$in` condition under
the object key `categories` (which is NOT a field of the product
document — the schema field is `category`). -/
def categoriesStage (q : ProductQuery) (obj : List (String × Cond)) : List (String × Cond) :=
  match q.categories with
  | some c => if c = "" then obj else setKey obj ("categories") (Cond.inSet (splitComma c))
  | none => obj

/-- The rating-filter assignment of lines 170-172. -/
def ratingStage (q : ProductQuery) (obj : List (String × Cond)) : List (String × Cond) :=
  match q.minRating with
  | some v => setKey obj ("rating") (Cond.gteNum v)
  | none => obj

/-- Construction of `filterConditions` (lines 150-172): start from the
pass-through keys as string-equality conditions, then assign the price
range, the categories `$in` condition, and the rating `$gte` condition,
in the code's order. -/
def buildFilterConditions (q : ProductQuery) : List (String × Cond) :=
  ratingStage q (categoriesStage q (priceStage q
    (q.extra.map (fun kv => (kv.1, Cond.eqStr kv.2)))))

/-- MongoDB matching of one condition of the filter object against a
product document: equality compares the (string) query value with a string
field and never equals a number or a missing field; `$gte`/`$lte` apply to
number fields; `$in` with a list of strings matches a string field only. -/
def matchCond (p : Product) : String × Cond → Bool
  | (k, Cond.eqStr v) =>
    match docStr p k with
    | some s => s == v
    | none => false
  | (k, Cond.range lo hi) =>
    match docNum p k with
    | some n =>
      (match lo with | none => true | some v => jsLe v (JSNum.num n)) &&
      (match hi with | none => true | some v => jsLe (JSNum.num n) v)
    | none => false
  | (k, Cond.gteNum v) =>
    match docNum p k with
    | some n => jsLe v (JSNum.num n)
    | none => false
  | (k, Cond.inSet vs) =>
    match docStr p k with
    | some s => vs.contains s
    | none => false

/-- The query's filtering pipeline as the code composes it: the `$or`
search query (line 130) further narrowed by `filterConditions`
(`searchQuery.find(filterConditions)`, line 175). -/
def applyFilters (q : ProductQuery) (l : List Product) : List Product :=
  (l.filter (fun p => searchMatch q p)).filter
    (fun p => (buildFilterConditions q).all (fun kc => matchCond p kc))

/-- The price-range filter as one standalone conjunct. -/
def priceFilter (q : ProductQuery) (p : Product) : Bool :=
  (match q.minPrice with | none => true | some v => jsLe v (JSNum.num p.price)) &&
  (match q.maxPrice with | none => true | some v => jsLe (JSNum.num p.price) v)

/-- The categories filter as one standalone conjunct: membership of the
document's `categories` field (which products do not have) in the split
set — when active and the set is non-trivial it matches no product. -/
def categoriesFilter (q : ProductQuery) (p : Product) : Bool :=
  match q.categories with
  | none => true
  | some c =>
    if c = "" then true
    else
      match docStr p ("categories") with
      | some s => (splitComma c).contains s
      | none => false

/-- The minimum-rating filter as one standalone conjunct. -/
def ratingFilter (q : ProductQuery) (p : Product) : Bool :=
  match q.minRating with
  | none => true
  | some v =>
    match docNum p ("rating") with
    | some n => jsLe v (JSNum.num n)
    | none => false

/-- Exact-match equality of a pass-through query value with a document
field (string fields only: a query string never equals a number field). -/
def eqFieldMatch (p : Product) (kv : String × String) : Bool :=
  match docStr p kv.1 with
  | some s => s == kv.2
  | none => false

/-- The pass-through equality filters that actually survive the object
construction: an extra `price` key is overwritten when a price bound is
given, an extra `rating` key is overwritten when minRating is given. -/
def extrasFilter (q : ProductQuery) (p : Product) : Bool :=
  q.extra.all (fun kv =>
    if kv.1 == "price" && (q.minPrice.isSome || q.maxPrice.isSome) then true
    else if kv.1 == "rating" && q.minRating.isSome then true
    else eqFieldMatch p kv)

/-- Modelled from the claim's words (C5), for comparison with
`applyFilters`: the conjunction of all active filters in which EVERY
non-reserved key is applied as an exact-match equality filter. -/
def c5ClaimFilter (q : ProductQuery) (l : List Product) : List Product :=
  l.filter (fun p =>
    searchMatch q p && priceFilter q p && categoriesFilter q p && ratingFilter q p &&
    q.extra.all (fun kv => eqFieldMatch p kv))

/-- A BSON value for sorting purposes; MongoDB orders missing values
below numbers and numbers below strings. -/
inductive BVal
  | missing
  | int (n : Int)
  | str (s : String)
deriving DecidableEq

/-- The sort key of a document under a field name. -/
def docVal (p : Product) (k : String) : BVal :=
  match docNum p k with
  | some n => BVal.int n
  | none =>
    match docStr p k with
    | some s => BVal.str s
    | none => BVal.missing

/-- The BSON comparison order on sort keys. -/
def bleV : BVal → BVal → Bool
  | BVal.missing, _ => true
  | BVal.int _, BVal.missing => false
  | BVal.int a, BVal.int b => decide (a ≤ b)
  | BVal.int _, BVal.str _ => true
  | BVal.str _, BVal.missing => false
  | BVal.str _, BVal.int _ => false
  | BVal.str a, BVal.str b => decide (a ≤ b)

/-- Insertion into a sorted list under a boolean comparator. -/
def insertByLe (le : Product → Product → Bool) (x : Product) : List Product → List Product
  | [] => [x]
  | y :: ys => if le x y then x :: y :: ys else y :: insertByLe le x ys

/-- Insertion sort under a boolean comparator (the model of the store's
sort stage). -/
def sortByLe (le : Product → Product → Bool) : List Product → List Product
  | [] => []
  | x :: xs => insertByLe le x (sortByLe le xs)

/-- The sort stage (lines 177-180): sort by `sortTerm` (default
`createdAt`), descending exactly when `sortOrder` is `desc`. -/
def sortStage (q : ProductQuery) (l : List Product) : List Product :=
  let term :=
    match q.sortTerm with
    | none => "createdAt"
    | some t => if t = "" then "createdAt" else t
  let desc := q.sortOrder == some "desc"
  sortByLe (fun a b =>
    if desc then bleV (docVal b term) (docVal a term)
    else bleV (docVal a term) (docVal b term)) l

/-- `Number(query.page) || 1` (line 183): NaN and 0 (and absence) fall
back to 1. -/
def effPage (q : ProductQuery) : Int :=
  match q.page with
  | some (JSNum.num n) => if n = 0 then 1 else n
  | some JSNum.nan => 1
  | none => 1

/-- `Number(query.limit) || 10` (line 184). -/
def effLimit (q : ProductQuery) : Int :=
  match q.limit with
  | some (JSNum.num n) => if n = 0 then 10 else n
  | some JSNum.nan => 10
  | none => 10

/-- GET /api/products: search, filter, sort, then paginate with
`skip = (page - 1) * limit` and the page length capped at `limit`
(lines 182-187).  Modelled for non-negative skip and limit (`toNat`);
MongoDB rejects a negative skip, so the theorems below restrict to
`page ≥ 1` and `limit ≥ 0`. -/
def productsQuery (db : DB) (q : ProductQuery) : List Product :=
  let l := db.products.map Prod.snd
  let sorted := sortStage q (applyFilters q l)
  let skip := (effPage q - 1) * effLimit q
  (sorted.drop skip.toNat).take (effLimit q).toNat

-- Fetching orders with populate (GET /api/orders[/:id], lines 502-544).

/-- A line item as serialized by the order-fetch endpoints: `product` is
the populated document when the populate path resolved it, `none` when it
did not. -/
structure PopulatedItem where
  productId : Nat
  quantity : Int
  product : Option Product
deriving DecidableEq

/-- The literal populate path the code passes (lines 506 and 524). -/
def populatePathUsed : String := "products.product"

/-- Mongoose populate over the order's line items: the schema declares the
reference under `products.productId` (line 97), so only that path resolves
the referenced documents; any other path resolves nothing (strict Mongoose
raises StrictPopulateError instead — either way no reference is resolved). -/
def populateItems (db : DB) (path : String) (items : List OrderItem) : List PopulatedItem :=
  items.map (fun it =>
    { productId := it.productId
      quantity := it.quantity
      product := if path = "products.productId" then findProduct db it.productId else none })

/-- GET /api/orders (lines 502-517): all orders with populated items. -/
def getAllOrders (db : DB) : List (Nat × Order × List PopulatedItem) :=
  db.orders.map (fun pr => (pr.1, pr.2, populateItems db populatePathUsed pr.2.products))

/-- GET /api/orders/:id (lines 520-544). -/
def getOrderById (db : DB) (oid : Nat) : Option (Order × List PopulatedItem) :=
  (findOrder db oid).map (fun o => (o, populateItems db populatePathUsed o.products))

-- Concrete data used by the counterexamples and witnesses below.

/-- A sample product with stock 2 and price 10 (spec §8 example). -/
def w1prodA : Product :=
  { name := "A", description := "d", price := 10, stock := 2,
    category := "plants", rating := none, image_url := "u", createdAt := 0 }

/-- A sample product with stock 1 and price 5 (spec §8 example). -/
def w1prodB : Product :=
  { name := "B", description := "d", price := 5, stock := 1,
    category := "plants", rating := none, image_url := "u", createdAt := 0 }

/-- A two-product database. -/
def w1db : DB := { products := [(1, w1prodA), (2, w1prodB)], orders := [] }

/-- The spec §8 example request: quantities 2 and 1. -/
def w1req : OrderRequest :=
  { name := "n", phoneNumber := "p", address := "a", products := [⟨1, 2⟩, ⟨2, 1⟩] }

/-- The order the example request creates: total 25, status pending. -/
def w1order : Order :=
  { name := "n", phoneNumber := "p", address := "a",
    products := [⟨1, 2⟩, ⟨2, 1⟩], totalAmount := 25, status := OrderStatus.pending }

/-- The database after the example placement: both stocks at 0. -/
def w1db2 : DB :=
  { products := [(1, { w1prodA with stock := 0 }), (2, { w1prodB with stock := 0 })],
    orders := [(1, w1order)] }

/-- A product with stock 1, for the rejection witness. -/
def w2prod : Product :=
  { name := "C", description := "d", price := 10, stock := 1,
    category := "plants", rating := none, image_url := "u", createdAt := 0 }

/-- A one-product database with stock 1. -/
def w2db : DB := { products := [(1, w2prod)], orders := [] }

/-- A request ordering 5 units of the product with stock 1. -/
def w2req : OrderRequest :=
  { name := "n", phoneNumber := "p", address := "a", products := [⟨1, 5⟩] }

/-- A product with stock 5, referenced twice by the C3 counterexample. -/
def c3prod : Product :=
  { name := "D", description := "d", price := 10, stock := 5,
    category := "plants", rating := none, image_url := "u", createdAt := 0 }

/-- A one-product database with stock 5. -/
def c3db : DB := { products := [(1, c3prod)], orders := [] }

/-- A request with the same product in two line items of quantity 2. -/
def c3req : OrderRequest :=
  { name := "n", phoneNumber := "p", address := "a", products := [⟨1, 2⟩, ⟨1, 2⟩] }

/-- A product with stock 5, for the amended-C3 witness. -/
def w3prod : Product :=
  { name := "E", description := "d", price := 7, stock := 5,
    category := "plants", rating := none, image_url := "u", createdAt := 0 }

/-- A one-product database. -/
def w3db : DB := { products := [(1, w3prod)], orders := [] }

/-- A request with a single line item of quantity 2. -/
def w3req : OrderRequest :=
  { name := "n", phoneNumber := "p", address := "a", products := [⟨1, 2⟩] }

/-- The order the single-item request creates. -/
def w3order : Order :=
  { name := "n", phoneNumber := "p", address := "a",
    products := [⟨1, 2⟩], totalAmount := 14, status := OrderStatus.pending }

/-- The database after the single-item placement: stock 3. -/
def w3db2 : DB :=
  { products := [(1, { w3prod with stock := 3 })], orders := [(1, w3order)] }

/-- A sample product with stock 5. -/
def c9prod : Product :=
  { name := "Aloe", description := "a plant", price := 10, stock := 5,
    category := "plants", rating := none, image_url := "u", createdAt := 0 }

/-- A one-product database. -/
def c9db : DB := { products := [(1, c9prod)], orders := [] }

/-- An order request with a single line item of quantity 0. -/
def c9req : OrderRequest :=
  { name := "n", phoneNumber := "p", address := "a", products := [⟨1, 0⟩] }

/-- An order request with a single line item of negative quantity. -/
def c9negReq : OrderRequest :=
  { name := "n", phoneNumber := "p", address := "a", products := [⟨1, -3⟩] }

/-- A sample product with stock 3. -/
def c10prod : Product :=
  { name := "Fern", description := "a plant", price := 10, stock := 3,
    category := "plants", rating := none, image_url := "u", createdAt := 0 }

/-- A one-product database with stock 3. -/
def c10db : DB := { products := [(1, c10prod)], orders := [] }

/-- A request listing the same product twice, quantities 2 and 2
(combined 4, exceeding the stock of 3). -/
def c10req : OrderRequest :=
  { name := "n", phoneNumber := "p", address := "a", products := [⟨1, 2⟩, ⟨1, 2⟩] }

/-- A stored order, for the status-update witness. -/
def w7order : Order :=
  { name := "n", phoneNumber := "p", address := "a",
    products := [], totalAmount := 0, status := OrderStatus.pending }

/-- A database holding one order under id 1. -/
def w7db : DB := { products := [], orders := [(1, w7order)] }

/-- A product whose category is `plants`. -/
def c4prod : Product :=
  { name := "Rose", description := "flower", price := 10, stock := 5,
    category := "plants", rating := none, image_url := "u", createdAt := 0 }

/-- A one-product database for the categories filter. -/
def c4db : DB := { products := [(1, c4prod)], orders := [] }

/-- A query whose only parameter is `categories=plants,flowers`. -/
def c4query : ProductQuery := { categories := some "plants,flowers" }

/-- A product with price 7. -/
def c5prod : Product :=
  { name := "Lily", description := "flower", price := 7, stock := 5,
    category := "plants", rating := none, image_url := "u", createdAt := 0 }

/-- A query combining the non-reserved key `price` (pass-through equality
filter) with the reserved `minPrice` (range filter on the same object key). -/
def c5query : ProductQuery :=
  { minPrice := some (JSNum.num 5), extra := [("price", "10")] }

/-- The empty product query: all defaults. -/
def w6q : ProductQuery := {}

/-- Three products created at times 2, 1 and 3. -/
def w6pa : Product :=
  { name := "Pa", description := "d", price := 1, stock := 1,
    category := "c", rating := none, image_url := "u", createdAt := 2 }

/-- Second product. -/
def w6pb : Product :=
  { name := "Pb", description := "d", price := 2, stock := 1,
    category := "c", rating := none, image_url := "u", createdAt := 1 }

/-- Third product. -/
def w6pc : Product :=
  { name := "Pc", description := "d", price := 3, stock := 1,
    category := "c", rating := none, image_url := "u", createdAt := 3 }

/-- A three-product database for the pagination witness. -/
def w6db : DB := { products := [(1, w6pa), (2, w6pb), (3, w6pc)], orders := [] }

/-- A product referenced by the stored order below. -/
def c8prod : Product :=
  { name := "Ivy", description := "d", price := 4, stock := 9,
    category := "plants", rating := none, image_url := "u", createdAt := 0 }

/-- An order holding one line item referencing product 1. -/
def c8order : Order :=
  { name := "n", phoneNumber := "p", address := "a",
    products := [⟨1, 2⟩], totalAmount := 8, status := OrderStatus.pending }

/-- A database with that product and order. -/
def c8db : DB := { products := [(1, c8prod)], orders := [(1, c8order)] }

-- Supporting lemmas about the embedded store.

/-- `find?` over a key-preserving map commutes with the map. -/
theorem find_map_keys {α : Type} (g : Nat × α → Nat × α)
    (hg : ∀ pr, (g pr).1 = pr.1) (l : List (Nat × α)) (k : Nat) :
    (l.map g).find? (fun pr => pr.1 == k) =
      (l.find? (fun pr => pr.1 == k)).map g := by
  induction l with
  | nil => rfl
  | cons pr l ih =>
    by_cases h : pr.1 = k
    · rw [List.map_cons, List.find?_cons_of_pos, List.find?_cons_of_pos]
      · rfl
      · simp [h]
      · simp [hg pr, h]
    · rw [List.map_cons, List.find?_cons_of_neg, List.find?_cons_of_neg, ih]
      · simp [h]
      · simp [hg pr, h]

/-- Decrementing one item's stock acts pointwise on a product lookup. -/
theorem findProduct_decStock (db : DB) (it : OrderItem) (pid : Nat) :
    findProduct (decStock db it) pid =
      (findProduct db pid).map (fun p =>
        if it.productId == pid then { p with stock := p.stock - it.quantity } else p) := by
  unfold findProduct decStock
  rw [find_map_keys]
  · cases hfind : db.products.find? (fun pr => pr.1 == pid) with
    | none => rfl
    | some pr =>
      have hpr := List.find?_some hfind
      have hpid : pr.1 = pid := by simpa using hpr
      subst hpid
      by_cases h : it.productId = pr.1
      · simp [h]
      · simp [h, Ne.symm h]
  · intro pr
    by_cases h : pr.1 = it.productId <;> simp [h]

/-- Quantity accounting for `sumQty` over a cons. -/
theorem sumQty_cons (it : OrderItem) (rest : List OrderItem) (pid : Nat) :
    sumQty (it :: rest) pid =
      (if it.productId = pid then it.quantity else 0) + sumQty rest pid := by
  by_cases h : it.productId = pid <;>
    simp [sumQty, List.filter_cons, h]

/-- The full decrement loop subtracts, from every product, the total
quantity the request orders of it. -/
theorem findProduct_decAll (items : List OrderItem) (db : DB) (pid : Nat) :
    findProduct (decAll db items) pid =
      (findProduct db pid).map (fun p => { p with stock := p.stock - sumQty items pid }) := by
  induction items generalizing db with
  | nil =>
    cases hfp : findProduct db pid with
    | none => simp [decAll, hfp]
    | some p => simp [decAll, hfp, sumQty]
  | cons it rest ih =>
    have hstep : decAll db (it :: rest) = decAll (decStock db it) rest := rfl
    rw [hstep, ih, findProduct_decStock, Option.map_map]
    cases hfp : findProduct db pid with
    | none => rfl
    | some p =>
      simp only [Option.map_some', Function.comp_apply]
      rw [sumQty_cons]
      by_cases h : it.productId = pid
      · simp [h, sub_sub]
      · simp [h]

/-- The decrement loop never touches the orders collection. -/
theorem decAll_orders (items : List OrderItem) (db : DB) :
    (decAll db items).orders = db.orders := by
  induction items generalizing db with
  | nil => rfl
  | cons it rest ih => exact ih (decStock db it)

/-- The initial accumulator is bounded by a max-fold. -/
theorem foldl_max_init (l : List Nat) : ∀ a : Nat, a ≤ l.foldl max a := by
  induction l with
  | nil => intro a; exact Nat.le_refl a
  | cons b l ih =>
    intro a
    exact Nat.le_trans (Nat.le_max_left a b) (ih (max a b))

/-- Every element of a list is bounded by its max-fold. -/
theorem le_foldl_max (l : List Nat) : ∀ (a x : Nat), x ∈ l → x ≤ l.foldl max a := by
  induction l with
  | nil => intro a x hx; cases hx
  | cons b l ih =>
    intro a x hx
    rcases List.mem_cons.mp hx with h | h
    · subst h
      exact Nat.le_trans (Nat.le_max_right a x) (foldl_max_init l (max a x))
    · exact ih (max a b) x h

/-- A freshly generated order id is not yet present in the store. -/
theorem freshOrderId_not_mem (db : DB) (pr : Nat × Order) (hpr : pr ∈ db.orders) :
    pr.1 ≠ freshOrderId db := by
  have hle : pr.1 ≤ (db.orders.map Prod.fst).foldl max 0 :=
    le_foldl_max _ 0 pr.1 (List.mem_map_of_mem Prod.fst hpr)
  unfold freshOrderId
  omega

/-- Looking up the freshly saved order finds it. -/
theorem findOrder_append_fresh (db : DB) (o : Order) :
    findOrder { db with orders := db.orders ++ [(freshOrderId db, o)] } (freshOrderId db) =
      some o := by
  unfold findOrder
  have hnone : db.orders.find? (fun pr => pr.1 == freshOrderId db) = none := by
    rw [List.find?_eq_none]
    intro pr hpr
    simpa using freshOrderId_not_mem db pr hpr
  simp [List.find?_append, hnone]

/-- A successful `checkItems` run returns the accumulator plus the
reference total of the remaining items. -/
theorem checkItems_ok_total (db : DB) (items : List OrderItem) :
    ∀ (acc t : Int), checkItems db acc items = Except.ok t → t = acc + specTotal db items := by
  induction items with
  | nil =>
    intro acc t h
    simp [checkItems] at h
    simp [specTotal, ← h]
  | cons it rest ih =>
    intro acc t h
    cases hfp : findProduct db it.productId with
    | none => simp [checkItems, hfp] at h
    | some product =>
      by_cases hst : product.stock < it.quantity
      · simp [checkItems, hfp, hst] at h
      · have hstep :
            checkItems db acc (it :: rest) =
              checkItems db (acc + product.price * it.quantity) rest := by
          simp [checkItems, hfp, hst]
        rw [hstep] at h
        have hrest := ih (acc + product.price * it.quantity) t h
        simp only [specTotal, List.map_cons, List.sum_cons, hfp] at hrest ⊢
        rw [hrest]
        ring

/-- Passing items shift the validation window without an error. -/
theorem checkItems_skip_pass (db : DB) (pre : List OrderItem) :
    ∀ (acc : Int) (rest : List OrderItem),
      pre.all (fun i => !(itemFailsB db i)) = true →
      ∃ acc2, checkItems db acc (pre ++ rest) = checkItems db acc2 rest := by
  induction pre with
  | nil => intro acc rest _; exact ⟨acc, rfl⟩
  | cons i pre ih =>
    intro acc rest hall
    rw [List.all_cons, Bool.and_eq_true] at hall
    obtain ⟨hi, hpre⟩ := hall
    unfold itemFailsB at hi
    cases hfp : findProduct db i.productId with
    | none => rw [hfp] at hi; cases hi
    | some product =>
      rw [hfp] at hi
      have hst : ¬ (product.stock < i.quantity) := by
        simpa using hi
      have hstep :
          checkItems db acc ((i :: pre) ++ rest) =
            checkItems db (acc + product.price * i.quantity) (pre ++ rest) := by
        simp [checkItems, hfp, hst]
      rw [hstep]
      exact ih (acc + product.price * i.quantity) rest hpre

/-- Anatomy of a successful order placement: the validation loop returned
exactly the order's totalAmount, the saved order is built from the request
with the schema-default `pending` status, its id is fresh, and the final
database is the decremented extension of the input database. -/
theorem placeOrder_ok_elim (db : DB) (req : OrderRequest) (db2 : DB) (oid : Nat) (o : Order)
    (h : placeOrder db req = (db2, Except.ok (oid, o))) :
    checkItems db 0 req.products = Except.ok o.totalAmount ∧
    o = { name := req.name, phoneNumber := req.phoneNumber, address := req.address,
          products := req.products, totalAmount := o.totalAmount,
          status := OrderStatus.pending } ∧
    oid = freshOrderId db ∧
    db2 = decAll { db with orders := db.orders ++ [(oid, o)] } req.products := by
  unfold placeOrder at h
  cases hchk : checkItems db 0 req.products with
  | error e => rw [hchk] at h; simp at h
  | ok t =>
    rw [hchk] at h
    simp only [Prod.mk.injEq, Except.ok.injEq] at h
    obtain ⟨hdb2, hoid, ho⟩ := h
    refine ⟨?_, ?_, hoid.symm, ?_⟩
    · rw [← ho]
    · rw [← ho]
    · rw [← ho, ← hoid]; exact hdb2.symm

/-- The orders collection of a db determines `findOrder`. -/
theorem findOrder_eq_of_orders (d1 d2 : DB) (hord : d1.orders = d2.orders) (oid : Nat) :
    findOrder d1 oid = findOrder d2 oid := by
  unfold findOrder; rw [hord]

/-- Overwriting the order stored under an occupied id makes lookups under
that id return the new order. -/
theorem findOrder_setOrder (db : DB) (oid : Nat) (o2 : Order)
    (h : (findOrder db oid).isSome = true) :
    findOrder (setOrder db oid o2) oid = some o2 := by
  unfold findOrder setOrder
  rw [find_map_keys]
  · unfold findOrder at h
    cases hf : db.orders.find? (fun pr => pr.1 == oid) with
    | none => rw [hf] at h; simp at h
    | some pr =>
      have hkey := List.find?_some hf
      simp only [Option.map_some']
      simp at hkey
      simp [hkey]
  · intro pr
    by_cases hpr : pr.1 = oid <;> simp [hpr]

/-- Claim C1 (confirmed): on a successful placement the order's
totalAmount is the sum over the line items of the product's price at
placement time times the quantity; the value is persisted with the order
(looking the order up in the resulting database returns it), and a later
status update rewrites only the status, leaving totalAmount as stored. -/
theorem c1_totalAmount_correct (db : DB) (req : OrderRequest) (db2 : DB) (oid : Nat)
    (o : Order) (s : String) (st : OrderStatus)
    (h : placeOrder db req = (db2, Except.ok (oid, o))) :
    o.totalAmount = specTotal db req.products ∧
    findOrder db2 oid = some o ∧
    (parseStatus s = some st →
      updateOrderStatus db2 oid s =
        (setOrder db2 oid { o with status := st }, Except.ok { o with status := st }) ∧
      ({ o with status := st } : Order).totalAmount = o.totalAmount) := by
  obtain ⟨hchk, ho, hoid, hdb2⟩ := placeOrder_ok_elim db req db2 oid o h
  have htot : o.totalAmount = specTotal db req.products := by
    have := checkItems_ok_total db req.products 0 o.totalAmount hchk
    omega
  have hfind : findOrder db2 oid = some o := by
    rw [hdb2,
      findOrder_eq_of_orders _ { db with orders := db.orders ++ [(oid, o)] }
        (decAll_orders req.products _) oid,
      hoid]
    exact findOrder_append_fresh db o
  refine ⟨htot, hfind, ?_⟩
  intro hps
  constructor
  · unfold updateOrderStatus
    rw [hps, hfind]
  · rfl

/-- Claim C2 (confirmed): if the items before `it` all pass validation and
`it` fails it (missing product, or quantity over stock), the whole request
is rejected with the matching error — NotFound when the product reference
does not resolve, InsufficientStock when the stock is short — and the
returned database is the input database unchanged: no order is created and
no stock moves. -/
theorem c2_invalid_item_rejected (db : DB) (req : OrderRequest)
    (pre post : List OrderItem) (it : OrderItem)
    (hsplit : req.products = pre ++ it :: post)
    (hpre : pre.all (fun i => !(itemFailsB db i)) = true)
    (hit : itemFailsB db it = true) :
    placeOrder db req = (db, Except.error (itemErr db it)) := by
  obtain ⟨acc2, hskip⟩ := checkItems_skip_pass db pre 0 (it :: post) hpre
  have herr : checkItems db acc2 (it :: post) = Except.error (itemErr db it) := by
    cases hfp : findProduct db it.productId with
    | none => simp [checkItems, hfp, itemErr]
    | some product =>
      have hst : product.stock < it.quantity := by
        unfold itemFailsB at hit
        rw [hfp] at hit
        exact of_decide_eq_true hit
      simp [checkItems, hfp, hst, itemErr]
  unfold placeOrder
  rw [hsplit, hskip, herr]

/-- Claim C7 (confirmed): for an existing order, updating the status to
any of the five enumerated values succeeds whatever the current status is
(the stored order becomes the same order with the new status); every
enumerated value parses; any other string fails validation and the
database is returned unchanged. -/
theorem c7_status_update (db : DB) (oid : Nat) (o : Order) (s : String) (st : OrderStatus)
    (h : findOrder db oid = some o) :
    (parseStatus s = some st →
      s ∈ statusEnum ∧
      updateOrderStatus db oid s =
        (setOrder db oid { o with status := st }, Except.ok { o with status := st }) ∧
      findOrder (setOrder db oid { o with status := st }) oid =
        some { o with status := st }) ∧
    (s ∈ statusEnum → (parseStatus s).isSome = true) ∧
    (s ∉ statusEnum → updateOrderStatus db oid s = (db, Except.error UpdErr.validationError)) := by
  refine ⟨?_, ?_, ?_⟩
  · intro hps
    refine ⟨?_, ?_, ?_⟩
    · unfold parseStatus at hps
      split_ifs at hps with h1 h2 h3 h4 h5
      · rw [h1]; simp [statusEnum]
      · rw [h2]; simp [statusEnum]
      · rw [h3]; simp [statusEnum]
      · rw [h4]; simp [statusEnum]
      · rw [h5]; simp [statusEnum]
    · unfold updateOrderStatus
      rw [hps, h]
    · exact findOrder_setOrder db oid _ (by rw [h]; rfl)
  · intro hs
    simp only [statusEnum, List.mem_cons, List.not_mem_nil, or_false] at hs
    rcases hs with h1 | h1 | h1 | h1 | h1 <;> subst h1 <;> rfl
  · intro hs
    have hps : parseStatus s = none := by
      unfold parseStatus
      split_ifs with h1 h2 h3 h4 h5
      · exact absurd (by rw [h1]; simp [statusEnum]) hs
      · exact absurd (by rw [h2]; simp [statusEnum]) hs
      · exact absurd (by rw [h3]; simp [statusEnum]) hs
      · exact absurd (by rw [h4]; simp [statusEnum]) hs
      · exact absurd (by rw [h5]; simp [statusEnum]) hs
      · rfl
    unfold updateOrderStatus
    rw [hps]

/-- Claim C3 (amended; see the counterexample below): a validated order is
persisted with status `pending`, and every product's stock decreases by
the TOTAL quantity ordered of it across all line items (so an unreferenced
product, with total 0, is unchanged).  The claim's per-line-item phrasing
fails when one product appears in several line items. -/
theorem c3_stock_decrement_amended (db : DB) (req : OrderRequest) (db2 : DB) (oid : Nat)
    (o : Order) (pid : Nat) (p : Product)
    (h : placeOrder db req = (db2, Except.ok (oid, o)))
    (hp : findProduct db pid = some p) :
    o.status = OrderStatus.pending ∧
    findProduct db2 pid = some { p with stock := p.stock - sumQty req.products pid } := by
  obtain ⟨hchk, ho, hoid, hdb2⟩ := placeOrder_ok_elim db req db2 oid o h
  constructor
  · rw [ho]
  · rw [hdb2, findProduct_decAll]
    have hsame : findProduct { db with orders := db.orders ++ [(oid, o)] } pid =
        findProduct db pid := rfl
    rw [hsame, hp]
    rfl

/-- Claim C9 (code bug): the handler never checks `quantity ≥ 1`.  A line
item with quantity 0 passes validation (stock 5 < 0 is false) and the
order is persisted with that line item; a negative quantity is likewise
accepted and the decrement `stock - (-3)` INCREASES the stock from 5 to 8.
This contradicts the spec's data-model invariant that every line item has
quantity ≥ 1 and that such requests are rejected. -/
theorem c9_quantity_not_validated :
    (∃ db2 oid o, placeOrder c9db c9req = (db2, Except.ok (oid, o)) ∧
      o.products = [⟨1, 0⟩] ∧ ¬ ((1 : Int) ≤ (0 : Int))) ∧
    (∃ db2 oid o, placeOrder c9db c9negReq = (db2, Except.ok (oid, o)) ∧
      (findProduct db2 1).map Product.stock = some 8) := by
  constructor
  · exact ⟨_, _, _, rfl, rfl, by decide⟩
  · exact ⟨_, _, _, rfl, rfl⟩

/-- Claim C10 (confirmed): each line item's stock check runs against the
stock as it was before the order, so a request naming the same product in
two line items of quantity 2 each passes validation against stock 3
(every item individually satisfies the check), the order is accepted, and
the per-item decrements drive the stock to −1. -/
theorem c10_duplicate_line_items :
    c10req.products.all (fun it => !(itemFailsB c10db it)) = true ∧
    (c10req.products.map OrderItem.quantity).sum = 4 ∧
    (findProduct c10db 1).map Product.stock = some 3 ∧ (3 : Int) < 4 ∧
    (∃ db2 oid o, placeOrder c10db c10req = (db2, Except.ok (oid, o)) ∧
      (findProduct db2 1).map Product.stock = some (-1) ∧ (-1 : Int) < 0) := by
  refine ⟨by decide, by decide, rfl, by decide, ?_⟩
  exact ⟨_, _, _, rfl, rfl, by decide⟩

/-- Claim C3 counterexample: with the request that lists product 1 (stock
5) in two line items of quantity 2, the order is accepted and the stock
afterwards is 1 — not 5 − 2 = 3 as the per-line-item reading of the claim
requires for the line item ⟨1, 2⟩. -/
theorem c3_per_item_decrement_false :
    (⟨1, 2⟩ : OrderItem) ∈ c3req.products ∧
    (findProduct c3db 1).map Product.stock = some 5 ∧
    (∃ db2 oid o, placeOrder c3db c3req = (db2, Except.ok (oid, o)) ∧
      (findProduct db2 1).map Product.stock = some 1) ∧
    (5 : Int) - 2 ≠ 1 := by
  refine ⟨by decide, rfl, ⟨_, _, _, rfl, rfl⟩, by decide⟩

/-- Witness for C1: the spec §8 example — prices 10 and 5, quantities 2
and 1 — totals 25, the order is stored, and a status update keeps its
totalAmount. -/
theorem c1_totalAmount_correct_witness :
    placeOrder w1db w1req = (w1db2, Except.ok (1, w1order)) ∧
    w1order.totalAmount = specTotal w1db w1req.products ∧
    findOrder w1db2 1 = some w1order ∧
    updateOrderStatus w1db2 1 ("shipped") =
      (setOrder w1db2 1 { w1order with status := OrderStatus.shipped },
        Except.ok { w1order with status := OrderStatus.shipped }) ∧
    ({ w1order with status := OrderStatus.shipped } : Order).totalAmount =
      w1order.totalAmount := by
  have h : placeOrder w1db w1req = (w1db2, Except.ok (1, w1order)) := rfl
  have m := c1_totalAmount_correct w1db w1req w1db2 1 w1order ("shipped")
    OrderStatus.shipped h
  exact ⟨h, m.1, m.2.1, (m.2.2 (by decide)).1, (m.2.2 (by decide)).2⟩

/-- Witness for C2: ordering 5 units of a product with stock 1 is
rejected with InsufficientStock and the database is unchanged. -/
theorem c2_invalid_item_rejected_witness :
    w2req.products = [] ++ (⟨1, 5⟩ : OrderItem) :: [] ∧
    ([] : List OrderItem).all (fun i => !(itemFailsB w2db i)) = true ∧
    itemFailsB w2db ⟨1, 5⟩ = true ∧
    placeOrder w2db w2req = (w2db, Except.error (itemErr w2db ⟨1, 5⟩)) :=
  ⟨rfl, rfl, by decide,
    c2_invalid_item_rejected w2db w2req [] [] ⟨1, 5⟩ rfl rfl (by decide)⟩

/-- Witness for amended C3: one line item of quantity 2 against stock 5
leaves status pending and stock 5 − 2 = 3. -/
theorem c3_stock_decrement_amended_witness :
    placeOrder w3db w3req = (w3db2, Except.ok (1, w3order)) ∧
    findProduct w3db 1 = some w3prod ∧
    w3order.status = OrderStatus.pending ∧
    findProduct w3db2 1 = some { w3prod with stock := w3prod.stock - sumQty w3req.products 1 } := by
  have h : placeOrder w3db w3req = (w3db2, Except.ok (1, w3order)) := rfl
  have hp : findProduct w3db 1 = some w3prod := rfl
  have m := c3_stock_decrement_amended w3db w3req w3db2 1 w3order 1 w3prod h hp
  exact ⟨h, hp, m.1, m.2⟩

/-- Witness for C7: updating a pending order to "shipped" succeeds and is
stored; updating it to "bogus" fails with ValidationError and leaves the
database unchanged. -/
theorem c7_status_update_witness :
    findOrder w7db 1 = some w7order ∧
    ("shipped") ∈ statusEnum ∧
    updateOrderStatus w7db 1 ("shipped") =
      (setOrder w7db 1 { w7order with status := OrderStatus.shipped },
        Except.ok { w7order with status := OrderStatus.shipped }) ∧
    findOrder (setOrder w7db 1 { w7order with status := OrderStatus.shipped }) 1 =
      some { w7order with status := OrderStatus.shipped } ∧
    updateOrderStatus w7db 1 ("bogus") = (w7db, Except.error UpdErr.validationError) := by
  have h : findOrder w7db 1 = some w7order := rfl
  have m1 := (c7_status_update w7db 1 w7order ("shipped") OrderStatus.shipped h).1 (by decide)
  have m2 := (c7_status_update w7db 1 w7order ("bogus") OrderStatus.pending h).2.2 (by decide)
  exact ⟨h, m1.1, m1.2.1, m1.2.2, m2⟩

/-- Claim C4 (code bug): the categories filter is written to the object
key `categories`, but the product document's field is `category` — so a
product whose category IS a member of the comma-split set is still
excluded: with no other filter active, `categories=plants,flowers` returns
the empty list although the sole product's category `plants` is in the
set. -/
theorem c4_categories_filter_mismatch :
    (splitComma "plants,flowers").contains c4prod.category = true ∧
    findProduct c4db 1 = some c4prod ∧
    c4query.extra = [] ∧ c4query.searchTerm = none ∧ c4query.minPrice = none ∧
    c4query.maxPrice = none ∧ c4query.minRating = none ∧
    productsQuery c4db c4query = [] :=
  ⟨by decide, rfl, rfl, rfl, rfl, rfl, rfl, by decide⟩

/-- Claim C5 counterexample: with `minPrice=5` and the non-reserved key
`price=10`, the code's pipeline keeps the price-7 product (the equality
filter on `price` was overwritten by the range condition), while the claim
as written — every non-reserved key applied as an equality filter — would
return the empty list. -/
theorem c5_passthrough_overwrite_false :
    applyFilters c5query [c5prod] = [c5prod] ∧
    c5ClaimFilter c5query [c5prod] = [] := by
  exact ⟨by decide, by decide⟩

/-- Claim C8 (code bug): order fetches populate the path
`products.product`, which is not the schema path (`products.productId`),
so the line items of a fetched order do NOT carry the product details,
although the referenced product exists and populating the schema path
would resolve it. -/
theorem c8_populate_wrong_path :
    populatePathUsed = "products.product" ∧
    populatePathUsed ≠ "products.productId" ∧
    findProduct c8db 1 = some c8prod ∧
    getAllOrders c8db = [(1, c8order, [{ productId := 1, quantity := 2, product := none }])] ∧
    getOrderById c8db 1 = some (c8order, [{ productId := 1, quantity := 2, product := none }]) ∧
    populateItems c8db ("products.productId") c8order.products =
      [{ productId := 1, quantity := 2, product := some c8prod }] :=
  ⟨rfl, by decide, rfl, by decide, by decide, by decide⟩

/-- Claim C6 (confirmed): a missing or non-numeric page falls back to 1
and a missing or non-numeric limit to 10 (as does 0, via `|| default`),
and for any page/limit the result is the contiguous slice, of length at
most the limit, starting at offset (page − 1) × limit, of the one
filtered-and-sorted sequence computed from the page/limit-independent part
of the query. -/
theorem c6_pagination_slice (db : DB) (q : ProductQuery) (p l : Option JSNum)
    (_h1 : 1 ≤ effPage { q with page := p, limit := l })
    (_h2 : 0 ≤ effLimit { q with page := p, limit := l }) :
    effPage { q with page := none } = 1 ∧
    effPage { q with page := some JSNum.nan } = 1 ∧
    effLimit { q with limit := none } = 10 ∧
    effLimit { q with limit := some JSNum.nan } = 10 ∧
    productsQuery db { q with page := p, limit := l } =
      ((sortStage q (applyFilters q (db.products.map Prod.snd))).drop
          (((effPage { q with page := p, limit := l } - 1) *
            effLimit { q with page := p, limit := l }).toNat)).take
        (effLimit { q with page := p, limit := l }).toNat := by
  exact ⟨rfl, rfl, rfl, rfl, rfl⟩

/-- Witness for C6: page 2 with limit 1 over three products returns the
second element of the createdAt-sorted sequence. -/
theorem c6_pagination_slice_witness :
    (1 : Int) ≤ effPage { w6q with page := some (JSNum.num 2), limit := some (JSNum.num 1) } ∧
    (0 : Int) ≤ effLimit { w6q with page := some (JSNum.num 2), limit := some (JSNum.num 1) } ∧
    productsQuery w6db { w6q with page := some (JSNum.num 2), limit := some (JSNum.num 1) } =
      ((sortStage w6q (applyFilters w6q (w6db.products.map Prod.snd))).drop
          (((effPage { w6q with page := some (JSNum.num 2), limit := some (JSNum.num 1) } - 1) *
            effLimit { w6q with page := some (JSNum.num 2), limit := some (JSNum.num 1) }).toNat)).take
        (effLimit { w6q with page := some (JSNum.num 2), limit := some (JSNum.num 1) }).toNat ∧
    productsQuery w6db { w6q with page := some (JSNum.num 2), limit := some (JSNum.num 1) } = [w6pa] := by
  refine ⟨by decide, by decide, ?_, by decide⟩
  exact (c6_pagination_slice w6db w6q (some (JSNum.num 2)) (some (JSNum.num 1))
    (by decide) (by decide)).2.2.2.2

-- Lemmas about the filter-object construction, towards claim C5.

/-- Matching the pass-through equality conditions is matching each query
value against the document field. -/
theorem all_matchCond_map_eqStr (p : Product) (e : List (String × String)) :
    ((e.map (fun kv => (kv.1, Cond.eqStr kv.2))).all (fun kc => matchCond p kc)) =
      e.all (fun kv => eqFieldMatch p kv) := by
  induction e with
  | nil => rfl
  | cons kv e ih =>
    rw [List.map_cons, List.all_cons, List.all_cons, ih]
    rfl

/-- Assigning a key that is absent leaves the map step inert. -/
theorem map_setKey_id (k : String) (c : Cond) (obj : List (String × Cond))
    (h : obj.any (fun kv => kv.1 == k) = false) :
    obj.map (fun kv => if kv.1 == k then (k, c) else kv) = obj := by
  induction obj with
  | nil => rfl
  | cons kv obj ih =>
    rw [List.any_cons] at h
    obtain ⟨h1, h2⟩ := Bool.or_eq_false_iff.mp h
    have h1' : ¬ (kv.1 == k) = true := by rw [h1]; exact Bool.false_ne_true
    rw [List.map_cons, if_neg h1', ih h2]

/-- Filtering out an absent key is inert. -/
theorem filter_and_not_key (k : String) (pf : String × Cond → Bool) (obj : List (String × Cond))
    (h : obj.any (fun kv => kv.1 == k) = false) :
    obj.filter (fun kv => pf kv && !(kv.1 == k)) = obj.filter pf := by
  induction obj with
  | nil => rfl
  | cons kv obj ih =>
    rw [List.any_cons] at h
    obtain ⟨h1, h2⟩ := Bool.or_eq_false_iff.mp h
    simp only [List.filter_cons, h1, Bool.not_false, Bool.and_true, ih h2]

/-- Assigning one key does not create another. -/
theorem any_key_setKey (obj : List (String × Cond)) (k : String) (c : Cond) (k2 : String)
    (hkk : (k == k2) = false) :
    (setKey obj k c).any (fun kv => kv.1 == k2) = obj.any (fun kv => kv.1 == k2) := by
  unfold setKey
  by_cases h : obj.any (fun kv => kv.1 == k) = true
  · rw [if_pos h, List.any_map]
    have hpt : ((fun kv : String × Cond => kv.1 == k2) ∘
        fun kv => if kv.1 == k then (k, c) else kv) =
        fun kv : String × Cond => kv.1 == k2 := by
      funext kv
      by_cases hkv : kv.1 = k
      · simp [hkv, hkk]
      · simp [hkv]
    rw [hpt]
  · rw [if_neg h, List.any_append]
    simp [hkk]

/-- The pass-through keys never carry a reserved name. -/
theorem extra_no_reserved_key (e : List (String × String))
    (hres : e.all (fun kv => !(excludeFields.contains kv.1)) = true)
    (k : String) (hk : excludeFields.contains k = true) :
    e.any (fun kv => kv.1 == k) = false := by
  rw [List.any_eq_false]
  intro kv hkv hcon
  have hfree := List.all_eq_true.mp hres kv hkv
  have : kv.1 = k := by simpa using hcon
  rw [this] at hfree
  rw [hk] at hfree
  cases hfree

/-- Matching all conditions after overwriting an existing key: the old
entry under that key is gone, the new condition is conjoined. -/
theorem all_filter_mapReplace (p : Product) (k : String) (c : Cond) (pf : String × Cond → Bool)
    (hk : ∀ c', pf (k, c') = true) :
    ∀ obj : List (String × Cond), obj.any (fun kv => kv.1 == k) = true →
      (((obj.map (fun kv => if kv.1 == k then (k, c) else kv)).filter pf).all
          (fun kc => matchCond p kc)) =
        (((obj.filter (fun kv => pf kv && !(kv.1 == k))).all (fun kc => matchCond p kc)) &&
          matchCond p (k, c)) := by
  intro obj
  induction obj with
  | nil => intro h; simp at h
  | cons kv obj ih =>
    intro h
    by_cases hkv : (kv.1 == k) = true
    · rw [List.map_cons, if_pos hkv, List.filter_cons,
        if_pos (hk c), List.all_cons, List.filter_cons]
      have hdrop : (pf kv && !(kv.1 == k)) = false := by rw [hkv]; simp
      rw [if_neg (by rw [hdrop]; exact Bool.false_ne_true)]
      by_cases hany : obj.any (fun kv => kv.1 == k) = true
      · rw [ih hany]
        cases matchCond p (k, c) <;>
          cases (obj.filter (fun kv => pf kv && !(kv.1 == k))).all (fun kc => matchCond p kc) <;>
          simp
      · have hfalse : obj.any (fun kv => kv.1 == k) = false := by
          revert hany; cases obj.any (fun kv => kv.1 == k) <;> simp
        rw [map_setKey_id k c obj hfalse, filter_and_not_key k pf obj hfalse]
        exact Bool.and_comm _ _
    · have hkv' : (kv.1 == k) = false := by
        revert hkv; cases (kv.1 == k) <;> simp
      have hany : obj.any (fun kv => kv.1 == k) = true := by
        rw [List.any_cons, hkv'] at h; simpa using h
      rw [List.map_cons, if_neg hkv, List.filter_cons, List.filter_cons]
      have hcond : (pf kv && !(kv.1 == k)) = pf kv := by rw [hkv']; simp
      rw [hcond]
      by_cases hpv : pf kv = true
      · rw [if_pos hpv, if_pos hpv, List.all_cons, List.all_cons, ih hany]
        exact (Bool.and_assoc _ _ _).symm
      · rw [if_neg hpv, if_neg hpv]
        exact ih hany

/-- Matching all conditions of a filtered view of `setKey obj k c`: the
entries under `k` are replaced and the new condition is conjoined. -/
theorem all_filter_setKey (p : Product) (k : String) (c : Cond) (pf : String × Cond → Bool)
    (hk : ∀ c', pf (k, c') = true) (obj : List (String × Cond)) :
    (((setKey obj k c).filter pf).all (fun kc => matchCond p kc)) =
      (((obj.filter (fun kv => pf kv && !(kv.1 == k))).all (fun kc => matchCond p kc)) &&
        matchCond p (k, c)) := by
  unfold setKey
  by_cases h : obj.any (fun kv => kv.1 == k) = true
  · rw [if_pos h]
    exact all_filter_mapReplace p k c pf hk obj h
  · have hfalse : obj.any (fun kv => kv.1 == k) = false := by
      revert h; cases obj.any (fun kv => kv.1 == k) <;> simp
    rw [if_neg h, List.filter_append, List.all_append,
      filter_and_not_key k pf obj hfalse]
    have hsing : ([(k, c)].filter pf) = [(k, c)] := by
      rw [List.filter_cons, if_pos (hk c)]
      rfl
    rw [hsing, List.all_cons]
    simp

/-- Unfiltered version of `all_filter_setKey`. -/
theorem all_setKey (p : Product) (k : String) (c : Cond) (obj : List (String × Cond)) :
    ((setKey obj k c).all (fun kc => matchCond p kc)) =
      (((obj.filter (fun kv => !(kv.1 == k))).all (fun kc => matchCond p kc)) &&
        matchCond p (k, c)) := by
  have h := all_filter_setKey p k c (fun kv => true) (fun c' => rfl) obj
  simpa using h

/-- Mapping pass-through pairs to conditions preserves key presence. -/
theorem any_key_map_eqStr (e : List (String × String)) (k : String) :
    ((e.map (fun kv => (kv.1, Cond.eqStr kv.2))).any (fun kv => kv.1 == k)) =
      e.any (fun kv => kv.1 == k) := by
  induction e with
  | nil => rfl
  | cons kv e ih => rw [List.map_cons, List.any_cons, List.any_cons, ih]

/-- Filtering commutes with the pass-through-to-condition map. -/
theorem filter_map_eqStr (e : List (String × String)) (pf : String × Cond → Bool) :
    ((e.map (fun kv => (kv.1, Cond.eqStr kv.2))).filter pf) =
      ((e.filter (fun kv => pf (kv.1, Cond.eqStr kv.2))).map
        (fun kv => (kv.1, Cond.eqStr kv.2))) := by
  induction e with
  | nil => rfl
  | cons kv e ih =>
    rw [List.map_cons, List.filter_cons, List.filter_cons]
    by_cases hp : pf (kv.1, Cond.eqStr kv.2) = true
    · rw [if_pos hp, if_pos hp, List.map_cons, ih]
    · rw [if_neg hp, if_neg hp, ih]

/-- `all` over a filtered list is `all` of the pointwise disjunction. -/
theorem all_filter_or {α : Type} (l : List α) (pr q : α → Bool) :
    ((l.filter pr).all q) = l.all (fun a => !(pr a) || q a) := by
  induction l with
  | nil => rfl
  | cons a l ih =>
    rw [List.filter_cons]
    by_cases hp : pr a = true
    · rw [if_pos hp, List.all_cons, List.all_cons, ih, hp]
      simp
    · have hp' : pr a = false := by revert hp; cases pr a <;> simp
      rw [if_neg hp, List.all_cons, ih, hp']
      simp

/-- The rating stage conjoins the standalone rating filter and shields the
key `rating` of the underlying object. -/
theorem all_ratingStage (p : Product) (q : ProductQuery) (obj : List (String × Cond)) :
    ((ratingStage q obj).all (fun kc => matchCond p kc)) =
      (((obj.filter (fun kv => !(kv.1 == "rating" && q.minRating.isSome))).all
          (fun kc => matchCond p kc)) && ratingFilter q p) := by
  cases hR : q.minRating with
  | none => simp [ratingStage, ratingFilter, hR]
  | some v =>
    simp only [ratingStage, hR]
    rw [all_setKey]
    have hfun : (fun kv : String × Cond => !(kv.1 == "rating" && (some v).isSome)) =
        (fun kv : String × Cond => !(kv.1 == "rating")) := by
      funext kv; simp
    rw [hfun]
    congr 1
    simp [ratingFilter, hR, matchCond]

/-- The categories stage conjoins the standalone categories filter; it
never overwrites because `categories` is a reserved key absent from the
object. -/
theorem all_filter_categoriesStage (p : Product) (q : ProductQuery)
    (pf : String × Cond → Bool) (hpc : ∀ c', pf ("categories", c') = true)
    (obj : List (String × Cond))
    (hno : obj.any (fun kv => kv.1 == "categories") = false) :
    (((categoriesStage q obj).filter pf).all (fun kc => matchCond p kc)) =
      (((obj.filter pf).all (fun kc => matchCond p kc)) && categoriesFilter q p) := by
  cases hC : q.categories with
  | none => simp [categoriesStage, categoriesFilter, hC]
  | some c =>
    by_cases hce : c = ""
    · simp [categoriesStage, categoriesFilter, hC, hce]
    · simp only [categoriesStage, hC, if_neg hce]
      have hset : setKey obj ("categories") (Cond.inSet (splitComma c)) =
          obj ++ [("categories", Cond.inSet (splitComma c))] := by
        unfold setKey
        rw [if_neg (by rw [hno]; exact Bool.false_ne_true)]
      rw [hset, List.filter_append, List.all_append]
      have hsing : ([("categories", Cond.inSet (splitComma c))].filter pf) =
          [("categories", Cond.inSet (splitComma c))] := by
        rw [List.filter_cons, if_pos (hpc _)]
        rfl
      rw [hsing, List.all_cons]
      simp [categoriesFilter, hC, hce, matchCond]

/-- The price stage conjoins the standalone price filter and, when a
bound is present, discards the pass-through entry under `price`. -/
theorem all_filter_priceStage (p : Product) (q : ProductQuery)
    (pf : String × Cond → Bool) (hpp : ∀ c', pf ("price", c') = true)
    (obj : List (String × Cond)) :
    (((priceStage q obj).filter pf).all (fun kc => matchCond p kc)) =
      (((obj.filter (fun kv =>
          pf kv && !(kv.1 == "price" && (q.minPrice.isSome || q.maxPrice.isSome)))).all
            (fun kc => matchCond p kc)) && priceFilter q p) := by
  by_cases hP : (q.minPrice.isSome || q.maxPrice.isSome) = true
  · rw [show priceStage q obj = setKey obj ("price") (Cond.range q.minPrice q.maxPrice) from by
      unfold priceStage; rw [if_pos hP]]
    rw [all_filter_setKey p ("price") (Cond.range q.minPrice q.maxPrice) pf hpp obj]
    have hfun : (fun kv : String × Cond =>
        pf kv && !(kv.1 == "price" && (q.minPrice.isSome || q.maxPrice.isSome))) =
        (fun kv : String × Cond => pf kv && !(kv.1 == "price")) := by
      funext kv; rw [hP]; simp
    rw [hfun]
    congr 1
  · have hP' : (q.minPrice.isSome || q.maxPrice.isSome) = false := by
      revert hP; cases (q.minPrice.isSome || q.maxPrice.isSome) <;> simp
    obtain ⟨h1, h2⟩ := Bool.or_eq_false_iff.mp hP'
    have hmin : q.minPrice = none := by
      cases hq : q.minPrice with
      | none => rfl
      | some x => rw [hq] at h1; simp at h1
    have hmax : q.maxPrice = none := by
      cases hq : q.maxPrice with
      | none => rfl
      | some x => rw [hq] at h2; simp at h2
    have hfun : (fun kv : String × Cond =>
        pf kv && !(kv.1 == "price" && (q.minPrice.isSome || q.maxPrice.isSome))) =
        pf := by
      funext kv; rw [hP']; simp
    rw [show priceStage q obj = obj from by unfold priceStage; rw [if_neg hP]]
    rw [hfun]
    simp [priceFilter, hmin, hmax]

/-- Matching the whole filter object is the conjunction of the four
standalone conjuncts: price range, categories membership, minimum rating,
and the surviving pass-through equality filters. -/
theorem all_build_eq (q : ProductQuery) (p : Product)
    (hres : q.extra.all (fun kv => !(excludeFields.contains kv.1)) = true) :
    ((buildFilterConditions q).all (fun kc => matchCond p kc)) =
      (priceFilter q p && categoriesFilter q p && ratingFilter q p && extrasFilter q p) := by
  have hno : (priceStage q (q.extra.map (fun kv => (kv.1, Cond.eqStr kv.2)))).any
      (fun kv => kv.1 == "categories") = false := by
    unfold priceStage
    by_cases hP : (q.minPrice.isSome || q.maxPrice.isSome) = true
    · rw [if_pos hP, any_key_setKey _ _ _ _ (by decide), any_key_map_eqStr]
      exact extra_no_reserved_key q.extra hres ("categories") (by decide)
    · rw [if_neg hP, any_key_map_eqStr]
      exact extra_no_reserved_key q.extra hres ("categories") (by decide)
  unfold buildFilterConditions
  rw [all_ratingStage]
  rw [all_filter_categoriesStage p q
    (fun kv => !(kv.1 == "rating" && q.minRating.isSome))
    (fun c' => by cases q.minRating.isSome <;> rfl)
    (priceStage q (q.extra.map (fun kv => (kv.1, Cond.eqStr kv.2)))) hno]
  rw [all_filter_priceStage p q
    (fun kv => !(kv.1 == "rating" && q.minRating.isSome))
    (fun c' => by cases q.minRating.isSome <;> rfl)
    (q.extra.map (fun kv => (kv.1, Cond.eqStr kv.2)))]
  rw [filter_map_eqStr, all_matchCond_map_eqStr, all_filter_or]
  have hfunx : (fun kv : String × String =>
      !(!(kv.1 == "rating" && q.minRating.isSome) &&
        !(kv.1 == "price" && (q.minPrice.isSome || q.maxPrice.isSome))) ||
        eqFieldMatch p kv) =
      (fun kv : String × String =>
        if kv.1 == "price" && (q.minPrice.isSome || q.maxPrice.isSome) then true
        else if kv.1 == "rating" && q.minRating.isSome then true
        else eqFieldMatch p kv) := by
    funext kv
    cases hA : (kv.1 == "rating" && q.minRating.isSome) <;>
      cases hB : (kv.1 == "price" && (q.minPrice.isSome || q.maxPrice.isSome)) <;>
      simp [hA, hB]
  rw [hfunx]
  unfold extrasFilter
  generalize q.extra.all _ = E
  generalize priceFilter q p = P
  generalize categoriesFilter q p = C
  generalize ratingFilter q p = R
  revert E P C R
  decide

/-- Claim C5 (amended; see the counterexample above): the result of the
filtering pipeline is exactly the products satisfying the conjunction of
the active filters — the searchTerm disjunction over name and
description, the price range, the (as-implemented) categories condition,
the minimum rating, and the pass-through equality filters, EXCEPT that a
pass-through `price` key is discarded when minPrice or maxPrice is given
and a pass-through `rating` key is discarded when minRating is given;
no error is raised for unknown keys. -/
theorem c5_filters_conjunction_amended (q : ProductQuery) (l : List Product)
    (hres : q.extra.all (fun kv => !(excludeFields.contains kv.1)) = true) :
    applyFilters q l = l.filter (fun p =>
      (ciContains p.name (q.searchTerm.getD ("")) ||
        ciContains p.description (q.searchTerm.getD (""))) &&
      (priceFilter q p && categoriesFilter q p && ratingFilter q p && extrasFilter q p)) := by
  unfold applyFilters
  rw [List.filter_filter]
  apply List.filter_congr
  intro p _
  rw [all_build_eq q p hres]
  have hsearch : searchMatch q p =
      (ciContains p.name (q.searchTerm.getD ("")) ||
        ciContains p.description (q.searchTerm.getD (""))) := by
    simp [searchMatch, searchAbleFields, docStr]
  rw [← hsearch]
  exact Bool.and_comm _ _

/-- Witness for amended C5: the counterexample query (`minPrice=5`, extra
`price=10`) has reserved-free extras and the equation holds on the
one-product list. -/
theorem c5_filters_conjunction_amended_witness :
    c5query.extra.all (fun kv => !(excludeFields.contains kv.1)) = true ∧
    applyFilters c5query [c5prod] = [c5prod].filter (fun p =>
      (ciContains p.name (c5query.searchTerm.getD ("")) ||
        ciContains p.description (c5query.searchTerm.getD (""))) &&
      (priceFilter c5query p && categoriesFilter c5query p && ratingFilter c5query p &&
        extrasFilter c5query p)) :=
  ⟨by decide, c5_filters_conjunction_amended c5query [c5prod] (by decide)⟩
